import Mathlib

/-!
Verification of the per-guild playback queue and playback-lifecycle state
machine of the OwnMusicBot repository, shallowly embedded from its two
source files `OwnedBot.py` (the "V1" bot) and `OwnDMusicBot.2.0.py` (the
"V2" cog variant).  External collaborators (discord voice transport,
yt-dlp extraction, the YouTube search API) are modelled as parameters or
as abstract data fed into the embedded command handlers; everything the
commands themselves do (queue mutation, flag handling, ordinal
translation, user-visible messages) is translated directly from the
Python source.
-/

/-- A resolved track: `YTDLSource` carries `title`, `url` (the `data`
fields read in `__init__`) and the `PCMVolumeTransformer` volume, which
defaults to `0.5` (both files, `YTDLSource.__init__`, `volume=0.5`). -/
structure Track where
  title : String
  url : String
  gain : ℚ
deriving DecidableEq, Repr

/-- Status of a guild's voice client: `is_playing()` is true exactly in
`playing`, `is_paused()` exactly in `paused`. -/
inductive VoiceStatus
  | idle
  | playing
  | paused
deriving DecidableEq, Repr

/-- A connected voice client: its playback status and the currently bound
audio source (`voice_client.source`). -/
structure Voice where
  status : VoiceStatus
  source : Option Track
deriving DecidableEq, Repr

/-- Python `str.isdigit()` restricted to ASCII: nonempty and all decimal
digits (the only inputs the bot's ordinal path is meant for). -/
def isDigitString (s : String) : Bool :=
  !s.data.isEmpty && s.data.all Char.isDigit

/-- Python `int(query)` on a decimal digit string. -/
def toNatDigits (s : String) : Nat :=
  s.data.foldl (fun acc c => acc * 10 + (c.toNat - 48)) 0

/-- The YouTube watch URL built from a cached video id
(`f"https://www.youtube.com/watch?v={video_id}"`, both files). -/
def watchUrl (videoId : String) : String :=
  "https://www.youtube.com/watch?v=" ++ videoId

/-- A guild's cached search results: the per-guild entry of
`search_results`, a list of `(title, video_id)` pairs; `none` models a
guild with no prior search (no dictionary entry). -/
def SearchCache := Option (List (String × String))

/-- Outcome of the ordinal-translation step at the top of V1 `play`:
either the query is rejected with the "Invalid number from search
results." message, or resolution proceeds on a (possibly translated)
query string. -/
inductive PlayQueryV1
  | invalidSelection
  | resolveQuery (url : String)
deriving DecidableEq, Repr

/-- V1 `play`, lines 225-231: if the query is all digits, it is accepted
only when the guild has cached search results and
`1 <= int(query) <= len(results)`, in which case it becomes the watch URL
of the `int(query)`-th (1-based) cached result; otherwise the command
sends "Invalid number from search results." and returns.  A non-digit
query passes through unchanged. -/
def playQueryV1 (cache : SearchCache) (query : String) : PlayQueryV1 :=
  if isDigitString query then
    match cache with
    | some results =>
        let n := toNatDigits query
        if 1 ≤ n ∧ n ≤ results.length then
          .resolveQuery (watchUrl (results.getD (n - 1) ("", "")).2)
        else
          .invalidSelection
    | none => .invalidSelection
  else
    .resolveQuery query

/-- Python list indexing semantics: a negative index counts from the
back; an index out of `[-len, len)` raises `IndexError` (`none`). -/
def pyListGet (l : List α) (i : Int) : Option α :=
  let j : Int := if i < 0 then (l.length : Int) + i else i
  if 0 ≤ j ∧ j < l.length then l[j.toNat]? else none

/-- Outcome of the ordinal-translation step of V2 `play`: either
resolution proceeds on a query string, or Python raised `IndexError`
(caught by the surrounding `except`, which sends a generic
"An error occurred" message). -/
inductive PlayQueryV2
  | resolveQuery (url : String)
  | indexError
deriving DecidableEq, Repr

/-- V2 `play` (`OwnDMusicBot.2.0.py` lines 145-149): when the query is
all digits AND the guild has cached results, the code indexes
`self.search_results[guild][int(query) - 1]` with no range check, so
Python's indexing rules apply (`0` becomes index `-1`, the last cached
result; an index past the end raises `IndexError`).  In every other case
the raw query string is resolved. -/
def playQueryV2 (cache : SearchCache) (query : String) : PlayQueryV2 :=
  match cache with
  | some results =>
      if isDigitString query then
        match pyListGet results ((toNatDigits query : Int) - 1) with
        | some r => .resolveQuery (watchUrl r.2)
        | none => .indexError
      else
        .resolveQuery query
  | none => .resolveQuery query

/-- What `yt_dlp.extract_info` handed back: a playlist (the `"entries"`
key is present) or a single item, each entry a `(title, url)` pair. -/
inductive ExtractData
  | playlist (entries : List (String × String))
  | single (title : String) (url : String)
deriving DecidableEq, Repr

/-- `YTDLSource.from_url` (both files): a playlist becomes one
`YTDLSource` per entry, in the entries' original order; a single item
becomes a one-element list.  Every source is constructed with the default
volume `0.5`. -/
def fromUrl : ExtractData → List Track
  | .playlist entries => entries.map fun e => ⟨e.1, e.2, 1 / 2⟩
  | .single t u => [⟨t, u, 1 / 2⟩]

/-! ## V1 (`OwnedBot.py`): per-guild state and commands -/

/-- The per-guild slice of V1's module-level state: the guild's entry in
`song_queues`, its `stop_flags` entry, and its voice client (claims about
V1 playback are stated for a connected guild, as the handlers call
`ctx.voice_client` methods unconditionally). -/
structure GuildV1 where
  queue : List Track
  stopFlag : Bool
  voice : Voice
deriving DecidableEq, Repr

/-- Result of one V1 handler step: the new guild state, the track handed
to `voice_client.play` if any, and the messages sent to the channel, in
order. -/
structure StepV1 where
  state : GuildV1
  started : Option Track
  msgs : List String
deriving DecidableEq, Repr

/-- `play_next` (`OwnedBot.py` lines 138-148): if the guild's stop flag
is set, reset it and return (nothing is dequeued or played); otherwise
pop the front of the queue and play it, announcing "Now playing"; an
empty queue reports "Queue is empty." -/
def playNextV1 (s : GuildV1) : StepV1 :=
  if s.stopFlag then
    ⟨{ s with stopFlag := false }, none, []⟩
  else
    match s.queue with
    | [] => ⟨s, none, ["Queue is empty."]⟩
    | t :: rest =>
        ⟨{ s with queue := rest, voice := ⟨.playing, some t⟩ }, some t,
          ["**Now playing:** " ++ t.title]⟩

/-- `stop` (`OwnedBot.py` lines 303-311): empty the guild's queue; if the
voice client is playing, set the guild's stop flag and halt the stream
(which will fire the completion callback); always confirm. -/
def stopV1 (s : GuildV1) : StepV1 :=
  let s1 := { s with queue := ([] : List Track) }
  if s1.voice.status = .playing then
    ⟨{ s1 with stopFlag := true, voice := ⟨.idle, none⟩ }, none,
      ["Music stopped and queue cleared."]⟩
  else
    ⟨s1, none, ["Music stopped and queue cleared."]⟩

/-- `clear` (`OwnedBot.py` lines 296-301): empty the guild's queue and
confirm.  The stop flag is not touched. -/
def clearV1 (s : GuildV1) : StepV1 :=
  ⟨{ s with queue := ([] : List Track) }, none, ["Queue has been cleared."]⟩

/-- `skip` (`OwnedBot.py` lines 288-294): if playing, halt the stream and
confirm; otherwise report "Not playing anything." -/
def skipV1 (s : GuildV1) : StepV1 :=
  if s.voice.status = .playing then
    ⟨{ s with voice := ⟨.idle, none⟩ }, none, ["Skipped the song."]⟩
  else
    ⟨s, none, ["Not playing anything."]⟩

/-- `pause` (`OwnedBot.py` lines 255-261): pause when playing (no
message), otherwise report that nothing is playing. -/
def pauseV1 (s : GuildV1) : StepV1 :=
  if s.voice.status = .playing then
    ⟨{ s with voice := ⟨.paused, s.voice.source⟩ }, none, []⟩
  else
    ⟨s, none, ["The bot is not playing anything at the moment."]⟩

/-- `resume` (`OwnedBot.py` lines 264-272): resume when paused (no
message), otherwise report that nothing was playing. -/
def resumeV1 (s : GuildV1) : StepV1 :=
  if s.voice.status = .paused then
    ⟨{ s with voice := ⟨.playing, s.voice.source⟩ }, none, []⟩
  else
    ⟨s, none,
      ["The bot was not playing anything before this. Use play_url command"]⟩

/-- The "Added ..." confirmation of `play` (both files): a count for a
multi-track resolution, the first title otherwise. -/
def addedMsg (players : List Track) : String :=
  if players.length > 1 then
    "**Added " ++ toString players.length ++ " songs to the queue.**"
  else
    "**Added to queue:** " ++ (players.headD ⟨"", "", 1 / 2⟩).title

/-- `play` (`OwnedBot.py` lines 216-251): translate an ordinal query via
the cached search results (rejecting invalid ordinals); resolve through
`YTDLSource.from_url` (`extract` stands for the external `yt_dlp` call);
report when nothing was found; otherwise append every resolved player to
the guild's queue in order, confirm, and if the voice client is not
playing, invoke `play_next`. -/
def playV1 (extract : String → ExtractData) (cache : SearchCache)
    (s : GuildV1) (query : String) : StepV1 :=
  match playQueryV1 cache query with
  | .invalidSelection => ⟨s, none, ["Invalid number from search results."]⟩
  | .resolveQuery url =>
      let players := fromUrl (extract url)
      if players.isEmpty then
        ⟨s, none, ["Could not find any songs with that query."]⟩
      else
        let s1 := { s with queue := s.queue ++ players }
        if s1.voice.status = .playing then
          ⟨s1, none, [addedMsg players]⟩
        else
          let r := playNextV1 s1
          ⟨r.state, r.started, addedMsg players :: r.msgs⟩

/-- `queue` (`OwnedBot.py` lines 279-286): an enumerated listing of the
pending queue, or "The queue is empty." -/
def queueInfoV1 (s : GuildV1) : List String :=
  if s.queue.isEmpty then
    ["The queue is empty."]
  else
    ["**Current Queue:**\n" ++
      String.intercalate ("\n")
        (s.queue.enum.map fun p => toString (p.1 + 1) ++ ". " ++ p.2.title)]

/-- Repeated invocation of the V1 advance step, as the completion
callback chains it (`after=... play_next(ctx)`): collect the tracks
handed to `voice_client.play`, in order, stopping when an invocation
starts nothing. -/
def runAdvanceV1 : Nat → GuildV1 → List Track
  | 0, _ => []
  | n + 1, s =>
      match playNextV1 s with
      | ⟨s', some t, _⟩ => t :: runAdvanceV1 n s'
      | ⟨_, none, _⟩ => []

/-- The queue contents produced by a sequence of enqueue batches starting
from an empty guild queue: each `play` call appends its resolved players
one by one at the back — `song_queues[server_id].append(player)` in a
loop in `OwnedBot.py`, `await queue.put(player)` in a loop on the FIFO
`asyncio.Queue` in `OwnDMusicBot.2.0.py`. -/
def enqueueBatches (batches : List (List Track)) : List Track :=
  batches.foldl (fun q ts => q ++ ts) []

/-! ## V2 (`OwnDMusicBot.2.0.py`): per-guild cog state and commands -/

/-- The per-guild slice of the V2 cog's state: the guild's
`asyncio.Queue` contents (FIFO, front first) and its voice client, which
is `none` when the bot has no voice connection for the guild
(`ctx.voice_client is None`). -/
structure GuildV2 where
  queue : List Track
  voice : Option Voice
deriving DecidableEq, Repr

/-- Result of one V2 handler step. -/
structure StepV2 where
  state : GuildV2
  started : Option Track
  msgs : List String
deriving DecidableEq, Repr

/-- `MusicCog.play_next` (`OwnDMusicBot.2.0.py` lines 166-171): only when
the queue is non-empty AND a voice client exists, pop the front
(`await queue.get()` on an `asyncio.Queue` is FIFO), play it and announce
it; otherwise do nothing silently. -/
def playNextV2 (s : GuildV2) : StepV2 :=
  match s.voice with
  | some _ =>
      match s.queue with
      | [] => ⟨s, none, []⟩
      | t :: rest =>
          ⟨{ queue := rest, voice := some ⟨.playing, some t⟩ }, some t,
            ["**Now playing:** " ++ t.title]⟩
  | none => ⟨s, none, []⟩

/-- Repeated invocation of the V2 advance step, as the completion
callback chains it (`after=... create_task(self.play_next(ctx))`):
collect the tracks handed to `voice_client.play`, in order, stopping when
an invocation starts nothing. -/
def runAdvanceV2 : Nat → GuildV2 → List Track
  | 0, _ => []
  | n + 1, s =>
      match playNextV2 s with
      | ⟨s', some t, _⟩ => t :: runAdvanceV2 n s'
      | ⟨_, none, _⟩ => []

/-- `MusicCog.skip` (`OwnDMusicBot.2.0.py` lines 195-199): halt and
confirm only when a voice client exists and is playing; in every other
case the handler falls through with no message at all. -/
def skipV2 (s : GuildV2) : StepV2 :=
  match s.voice with
  | some v =>
      if v.status = .playing then
        ⟨{ s with voice := some ⟨.idle, none⟩ }, none, ["Skipped the song."]⟩
      else
        ⟨s, none, []⟩
  | none => ⟨s, none, []⟩

/-- `MusicCog.volume` (`OwnDMusicBot.2.0.py` lines 173-177): when a voice
client exists and has a bound source, set that source's volume to
`volume / 100` and confirm; otherwise do nothing.  Only the currently
bound source is touched — the queue is never read. -/
def volumeV2 (s : GuildV2) (vol : ℤ) : StepV2 :=
  match s.voice with
  | some v =>
      match v.source with
      | some t =>
          ⟨{ s with
              voice := some ⟨v.status, some { t with gain := (vol : ℚ) / 100 }⟩ },
            none, ["Volume set to " ++ toString vol ++ "%"]⟩
      | none => ⟨s, none, []⟩
  | none => ⟨s, none, []⟩

/-- The generic message V2's `except Exception` clause sends; the
concrete exception text is abstracted, only the fact that exactly one
error message is sent matters for the claims. -/
def errOccurredV2 : String := "An error occurred"

/-- `MusicCog.play` (`OwnDMusicBot.2.0.py` lines 140-164): translate a
digit query through the cached search results with raw Python indexing
(an `IndexError` lands in the `except` clause before anything was
enqueued); resolve through `YTDLSource.from_url`; enqueue every resolved
player in order; send the "Added" confirmation (an empty resolution makes
`players[0]` raise, landing in `except` with nothing enqueued); then test
`ctx.voice_client.is_playing()` — when no voice client exists this raises
`AttributeError`, caught by the same `except`, with everything already
enqueued; otherwise invoke `play_next` when not playing. -/
def playV2 (extract : String → ExtractData) (cache : SearchCache)
    (s : GuildV2) (query : String) : StepV2 :=
  match playQueryV2 cache query with
  | .indexError => ⟨s, none, [errOccurredV2]⟩
  | .resolveQuery url =>
      let players := fromUrl (extract url)
      if players.isEmpty then
        ⟨s, none, [errOccurredV2]⟩
      else
        let s1 := { s with queue := s.queue ++ players }
        match s1.voice with
        | none => ⟨s1, none, [addedMsg players, errOccurredV2]⟩
        | some v =>
            if v.status = .playing then
              ⟨s1, none, [addedMsg players]⟩
            else
              let r := playNextV2 s1
              ⟨r.state, r.started, addedMsg players :: r.msgs⟩

/-! ## Owner-restricted configuration commands

Both files guard their credential commands with `@commands.is_owner()`.
When the invoker is not the owner the framework raises `NotOwner` instead
of running the body; V1 registers an error handler per command that sends
"You are not the owner of this bot." for that error, while the V2 cog
registers no error handler, so the rejection produces no message. -/

/-- The mutable credential state the commands touch: the module globals
`TOKEN` and `YOUTUBE_API_KEY`, plus the `youtube_cookie.txt` contents for
V1's `set_yt_cookie`. -/
structure Config where
  token : String
  apiKey : String
  cookie : Option String
deriving DecidableEq, Repr

/-- V1 `set_token` (lines 320-342): non-owner invocations never run the
body and the `set_token_error` handler sends the not-owner message; an
owner invocation validates the token against a test login (`loginOk`
stands for that external check) and updates `TOKEN` only on success. -/
def setTokenV1 (cfg : Config) (isOwner : Bool) (loginOk : Bool)
    (newToken : String) : Config × List String :=
  if isOwner then
    if loginOk then
      ({ cfg with token := newToken },
        ["Token has been updated. Please restart the bot for the change to take effect."])
    else
      (cfg, ["The provided token is invalid."])
  else
    (cfg, ["You are not the owner of this bot."])

/-- V1 `set_api_key` (lines 359-369): owner sets `YOUTUBE_API_KEY`;
non-owner is rejected by `set_api_key_error` with the not-owner
message. -/
def setApiKeyV1 (cfg : Config) (isOwner : Bool) (newKey : String) :
    Config × List String :=
  if isOwner then
    ({ cfg with apiKey := newKey }, ["YouTube API key has been set."])
  else
    (cfg, ["You are not the owner of this bot."])

/-- V1 `set_yt_cookie` (lines 344-357): owner writes the cookie file;
non-owner is rejected by `set_yt_cookie_error` with the not-owner
message. -/
def setYtCookieV1 (cfg : Config) (isOwner : Bool) (content : String) :
    Config × List String :=
  if isOwner then
    ({ cfg with cookie := some content },
      ["YouTube cookie has been set. Please restart the bot for the change to take effect."])
  else
    (cfg, ["You are not the owner of this bot."])

/-- V2 `set_token` (`OwnDMusicBot.2.0.py` lines 210-215): owner sets
`TOKEN`; a non-owner invocation is stopped by the `is_owner` check and,
with no error handler registered on the cog, produces no message. -/
def setTokenV2 (cfg : Config) (isOwner : Bool) (newToken : String) :
    Config × List String :=
  if isOwner then
    ({ cfg with token := newToken }, ["Token updated. Please restart the bot."])
  else
    (cfg, [])

/-- V2 `set_api_key` (`OwnDMusicBot.2.0.py` lines 217-222): owner sets
`YOUTUBE_API_KEY`; a non-owner invocation is silently rejected. -/
def setApiKeyV2 (cfg : Config) (isOwner : Bool) (newKey : String) :
    Config × List String :=
  if isOwner then
    ({ cfg with apiKey := newKey }, ["YouTube API key updated."])
  else
    (cfg, [])

/-! ## Helper lemmas -/

/-- Python indexing at a nonnegative index agrees with plain list
lookup. -/
theorem pyListGet_ofNat (l : List α) (n : Nat) :
    pyListGet l (n : Int) = l[n]? := by
  have h0 : ¬ ((n : Int) < 0) := by omega
  simp only [pyListGet]
  rw [if_neg h0]
  by_cases h : n < l.length
  · have hc : (0 : Int) ≤ (n : Int) ∧ (n : Int) < (l.length : Int) := by omega
    rw [if_pos hc]
    congr 1
  · have hc : ¬ ((0 : Int) ≤ (n : Int) ∧ (n : Int) < (l.length : Int)) := by
      omega
    rw [if_neg hc, eq_comm]
    exact List.getElem?_eq_none (by omega)

/-- Python indexing at `-1` reads the last element (none on an empty
list). -/
theorem pyListGet_negOne (l : List α) :
    pyListGet l (-1) = l[l.length - 1]? := by
  have h0 : (-1 : Int) < 0 := by omega
  simp only [pyListGet]
  rw [if_pos h0]
  by_cases h : l = []
  · subst h; simp
  · have hl : 0 < l.length := List.length_pos.mpr h
    have hc : (0 : Int) ≤ (l.length : Int) + (-1)
        ∧ (l.length : Int) + (-1) < (l.length : Int) := by omega
    rw [if_pos hc]
    congr 1
    omega

/-- Folding the per-track back-append over a batch sequence concatenates
the batches in order. -/
theorem enqueueBatches_eq_join (batches : List (List Track)) :
    enqueueBatches batches = batches.flatten := by
  suffices h : ∀ acc : List Track,
      batches.foldl (fun q ts => q ++ ts) acc = acc ++ batches.flatten by
    simpa using h []
  induction batches with
  | nil => intro acc; simp
  | cons b bs ih => intro acc; simp [ih]

/-- With the stop flag down, chaining the V1 advance step drains the
queue front-first, emitting exactly the queued tracks in queue order. -/
theorem runAdvanceV1_drains (q : List Track) (v : Voice) :
    runAdvanceV1 q.length ⟨q, false, v⟩ = q := by
  induction q generalizing v with
  | nil => rfl
  | cons t rest ih =>
      simpa [runAdvanceV1, playNextV1] using ih ⟨VoiceStatus.playing, some t⟩

/-- On a connected guild, chaining the V2 advance step drains the queue
front-first, emitting exactly the queued tracks in queue order. -/
theorem runAdvanceV2_drains (q : List Track) (v : Voice) :
    runAdvanceV2 q.length ⟨q, some v⟩ = q := by
  induction q generalizing v with
  | nil => rfl
  | cons t rest ih =>
      simpa [runAdvanceV2, playNextV2] using ih ⟨VoiceStatus.playing, some t⟩

/-! ## Claims -/

/-- Claim C2: for every guild and every sequence of enqueue operations
(each `play` call appending its batch of resolved tracks at the back of
that guild's queue, in both variants), the playback-advance step dequeues
from the front and successive advances return the tracks in exactly the
order they were enqueued — the FIFO invariant.  Stated for an arbitrary
batch sequence, in V1 for an arbitrary initial voice state with the stop
flag down, and in V2 for an arbitrarily-stated connected voice client. -/
theorem enqueue_dequeue_fifo (batches : List (List Track)) (v : Voice) :
    enqueueBatches batches = batches.flatten
    ∧ runAdvanceV1 (enqueueBatches batches).length
        ⟨enqueueBatches batches, false, v⟩ = enqueueBatches batches
    ∧ runAdvanceV2 (enqueueBatches batches).length
        ⟨enqueueBatches batches, some v⟩ = enqueueBatches batches := by
  exact ⟨enqueueBatches_eq_join batches,
    runAdvanceV1_drains (enqueueBatches batches) v,
    runAdvanceV2_drains (enqueueBatches batches) v⟩

/-- Claim C3: a stop command issued while a track is playing clears the
queue, raises the guild's stop flag, and the natural-completion callback
the halted stream then fires (one `play_next` invocation) dequeues
nothing, starts nothing, sends nothing, and leaves the voice client
idle — playback is never resurrected by that completion signal. -/
theorem stop_suppresses_completion (s : GuildV1)
    (h : s.voice.status = .playing) :
    (stopV1 s).state.stopFlag = true
    ∧ (stopV1 s).state.queue = []
    ∧ (stopV1 s).state.voice.status = .idle
    ∧ playNextV1 (stopV1 s).state =
        ⟨{ (stopV1 s).state with stopFlag := false }, none, []⟩
    ∧ (playNextV1 (stopV1 s).state).state.voice.status ≠ .playing := by
  simp [stopV1, playNextV1, h]

/-- Witness for Claim C3 at a concrete playing guild state. -/
theorem stop_suppresses_completion_witness :
    (stopV1 ⟨[⟨"B", "uB", 1/2⟩], false,
        ⟨.playing, some ⟨"A", "uA", 1/2⟩⟩⟩).state.stopFlag = true
    ∧ (stopV1 ⟨[⟨"B", "uB", 1/2⟩], false,
        ⟨.playing, some ⟨"A", "uA", 1/2⟩⟩⟩).state.queue = []
    ∧ (stopV1 ⟨[⟨"B", "uB", 1/2⟩], false,
        ⟨.playing, some ⟨"A", "uA", 1/2⟩⟩⟩).state.voice.status = .idle
    ∧ playNextV1 (stopV1 ⟨[⟨"B", "uB", 1/2⟩], false,
        ⟨.playing, some ⟨"A", "uA", 1/2⟩⟩⟩).state =
        ⟨{ (stopV1 ⟨[⟨"B", "uB", 1/2⟩], false,
            ⟨.playing, some ⟨"A", "uA", 1/2⟩⟩⟩).state with stopFlag := false },
          none, []⟩
    ∧ (playNextV1 (stopV1 ⟨[⟨"B", "uB", 1/2⟩], false,
        ⟨.playing, some ⟨"A", "uA", 1/2⟩⟩⟩).state).state.voice.status
        ≠ .playing :=
  stop_suppresses_completion
    ⟨[⟨"B", "uB", 1/2⟩], false, ⟨.playing, some ⟨"A", "uA", 1/2⟩⟩⟩ rfl

/-- Claim C4 counterexample: the claim asserts `clear` sets the guild's
stopping flag to true; on a guild whose flag is down, V1's `clear` (which
only empties `song_queues[server_id]`) leaves the flag false. -/
theorem clear_leaves_flag_down :
    (clearV1 ⟨[⟨"A", "uA", 1/2⟩], false,
        ⟨.playing, some ⟨"A", "uA", 1/2⟩⟩⟩).state.stopFlag = false := rfl

/-- Claim C4 as amended: `clear` empties the guild's pending queue but
leaves the stopping flag unchanged (it never sets it); an in-flight
natural-completion callback arriving after clear still does not
auto-advance to another track, because the queue it would pop is empty —
the advance step starts nothing and leaves the voice state untouched. -/
theorem clear_empties_queue_no_advance (s : GuildV1) :
    (clearV1 s).state.queue = []
    ∧ (clearV1 s).state.stopFlag = s.stopFlag
    ∧ (playNextV1 (clearV1 s).state).started = none
    ∧ (playNextV1 (clearV1 s).state).state.queue = []
    ∧ (playNextV1 (clearV1 s).state).state.voice = s.voice := by
  by_cases h : s.stopFlag <;> simp [clearV1, playNextV1, h]

/-- Claim C1 counterexample: the claim says a bare digit query `0` is
rejected with an invalid-selection error and never resolved; in the 2.0
variant, `play "0"` on a guild whose last search cached two results
indexes the cache at `int("0") - 1 = -1`, i.e. the LAST cached result,
and proceeds to resolve its watch URL. -/
theorem ordinal_zero_resolves_in_v2 :
    playQueryV2 (some [("Song A", "idA"), ("Song B", "idB")]) "0" =
      PlayQueryV2.resolveQuery (watchUrl ("idB")) := by decide

/-- Claim C1 as amended: in `OwnedBot.py` the ordinal is validated as the
claim states — a digit query is rejected with the invalid-selection
message when the guild has no prior search, when n = 0, or when n exceeds
the cached results, and for n in [1, len] it is translated to the watch
URL of the n-th (1-based) cached result.  In the 2.0 variant a digit
query with no prior search is resolved as a plain query; n = 0 on a
nonempty cache resolves the LAST cached result (Python negative
indexing); n = 0 on an empty cache and n > len raise IndexError, reported
as a generic error. -/
theorem ordinal_selection_validated (results : List (String × String))
    (q : String) (hq : isDigitString q = true) :
    (playQueryV1 none q = .invalidSelection)
    ∧ (toNatDigits q = 0 → playQueryV1 (some results) q = .invalidSelection)
    ∧ (results.length < toNatDigits q →
        playQueryV1 (some results) q = .invalidSelection)
    ∧ (1 ≤ toNatDigits q → toNatDigits q ≤ results.length →
        playQueryV1 (some results) q =
          .resolveQuery (watchUrl (results.getD (toNatDigits q - 1) ("", "")).2))
    ∧ (playQueryV2 none q = .resolveQuery q)
    ∧ (toNatDigits q = 0 → results ≠ [] →
        playQueryV2 (some results) q =
          .resolveQuery (watchUrl (results.getD (results.length - 1) ("", "")).2))
    ∧ (toNatDigits q = 0 → results = [] →
        playQueryV2 (some results) q = .indexError)
    ∧ (results.length < toNatDigits q →
        playQueryV2 (some results) q = .indexError)
    ∧ (1 ≤ toNatDigits q → toNatDigits q ≤ results.length →
        playQueryV2 (some results) q =
          .resolveQuery (watchUrl (results.getD (toNatDigits q - 1) ("", "")).2)) := by
  refine ⟨?_, ?_, ?_, ?_, ?_, ?_, ?_, ?_, ?_⟩
  · simp [playQueryV1, hq]
  · intro h0
    simp [playQueryV1, hq, h0]
  · intro hgt
    have : ¬ (1 ≤ toNatDigits q ∧ toNatDigits q ≤ results.length) := by omega
    simp [playQueryV1, hq, this]
  · intro h1 h2
    simp [playQueryV1, hq, h1, h2]
  · simp [playQueryV2]
  · intro h0 hne
    have hl : 0 < results.length := List.length_pos.mpr hne
    have hidx : ((toNatDigits q : Int) - 1) = -1 := by omega
    simp only [playQueryV2, hq, if_true, hidx, pyListGet_negOne]
    rw [List.getElem?_eq_getElem (by omega)]
    simp [List.getD_eq_getElem?_getD, List.getElem?_eq_getElem (show
      results.length - 1 < results.length by omega)]
  · intro h0 hnil
    subst hnil
    have hidx : ((toNatDigits q : Int) - 1) = -1 := by omega
    simp [playQueryV2, hq, hidx, pyListGet_negOne]
  · intro hgt
    have hcast : ((toNatDigits q : Int) - 1) = ((toNatDigits q - 1 : Nat) : Int) := by
      omega
    have hoob : results[toNatDigits q - 1]? = none :=
      List.getElem?_eq_none (by omega)
    simp [playQueryV2, hq, hcast, pyListGet_ofNat, hoob]
  · intro h1 h2
    have hcast : ((toNatDigits q : Int) - 1) = ((toNatDigits q - 1 : Nat) : Int) := by
      omega
    have hin : toNatDigits q - 1 < results.length := by omega
    simp only [playQueryV2, hq, if_true, hcast, pyListGet_ofNat]
    rw [List.getElem?_eq_getElem hin]
    simp [List.getD_eq_getElem?_getD, List.getElem?_eq_getElem hin]

/-- Witness for the amended Claim C1 at a concrete three-entry cache:
ordinal "2" is translated to the second cached result in both
variants. -/
theorem ordinal_selection_validated_witness :
    playQueryV1 (some [("A", "idA"), ("B", "idB"), ("C", "idC")]) "2" =
      PlayQueryV1.resolveQuery (watchUrl ("idB"))
    ∧ playQueryV2 (some [("A", "idA"), ("B", "idB"), ("C", "idC")]) "2" =
      PlayQueryV2.resolveQuery (watchUrl ("idB")) := by
  have h := ordinal_selection_validated
    [("A", "idA"), ("B", "idB"), ("C", "idC")] "2" (by decide)
  have h1 := h.2.2.2.1 (by decide) (by decide)
  have h2 := h.2.2.2.2.2.2.2.2 (by decide) (by decide)
  constructor
  · rw [h1]; decide
  · rw [h2]; decide

/-- Claim C5 counterexample: the claim says skip while nothing is playing
always produces exactly one "not playing" message and is never silent; in
the 2.0 variant, `skip` on a connected but idle guild falls through its
`if` with no `else`, sending no message at all. -/
theorem skip_idle_silent_in_v2 :
    skipV2 ⟨[], some ⟨.idle, none⟩⟩ = ⟨⟨[], some ⟨.idle, none⟩⟩, none, []⟩ :=
  rfl

/-- Claim C5 as amended: in `OwnedBot.py`, skip while the voice client is
not playing leaves the guild state unchanged and sends exactly one
"Not playing anything." message; in the 2.0 variant, skip while nothing
is playing (idle, paused, or not connected) is a silent no-op: state
unchanged and no message. -/
theorem skip_while_idle (s1 : GuildV1) (h1 : s1.voice.status ≠ .playing)
    (s2 : GuildV2) (h2 : ∀ v, s2.voice = some v → v.status ≠ .playing) :
    skipV1 s1 = ⟨s1, none, ["Not playing anything."]⟩
    ∧ skipV2 s2 = ⟨s2, none, []⟩ := by
  constructor
  · simp [skipV1, h1]
  · rcases hv : s2.voice with _ | v
    · simp [skipV2, hv]
    · simp [skipV2, hv, h2 v hv]

/-- Witness for the amended Claim C5 at concrete idle guild states. -/
theorem skip_while_idle_witness :
    skipV1 ⟨[], false, ⟨.idle, none⟩⟩ =
      ⟨⟨[], false, ⟨.idle, none⟩⟩, none, ["Not playing anything."]⟩
    ∧ skipV2 ⟨[], some ⟨.paused, none⟩⟩ =
      ⟨⟨[], some ⟨.paused, none⟩⟩, none, []⟩ :=
  skip_while_idle ⟨[], false, ⟨.idle, none⟩⟩ (by decide)
    ⟨[], some ⟨.paused, none⟩⟩
    (by intro v hv; simp at hv; subst hv; decide)

/-- Claim C6 counterexample: the claim says a non-owner invoking a
credential command always receives a visible "not owner" message; in the
2.0 variant, a non-owner invoking `set_token` leaves the configuration
unchanged but — with no error handler registered for the cog's
commands — receives no message at all. -/
theorem set_token_nonowner_silent_in_v2 :
    setTokenV2 ⟨"tok", "key", none⟩ false ("newtok") =
      (⟨"tok", "key", none⟩, []) := rfl

/-- Claim C6 as amended: every non-owner invocation of an
owner-restricted configuration command leaves the configuration
unchanged; in `OwnedBot.py` (`set_token`, `set_api_key`,
`set_yt_cookie`) the registered error handlers send the visible
"You are not the owner of this bot." message, while in the 2.0 variant
(`set_token`, `set_api_key`) the rejection is silent. -/
theorem nonowner_config_rejected (cfg : Config) (loginOk : Bool)
    (t k c : String) :
    setTokenV1 cfg false loginOk t =
      (cfg, ["You are not the owner of this bot."])
    ∧ setApiKeyV1 cfg false k =
      (cfg, ["You are not the owner of this bot."])
    ∧ setYtCookieV1 cfg false c =
      (cfg, ["You are not the owner of this bot."])
    ∧ setTokenV2 cfg false t = (cfg, [])
    ∧ setApiKeyV2 cfg false k = (cfg, []) := by
  refine ⟨rfl, rfl, rfl, rfl, rfl⟩

/-- Claim C7: a V1 `play` whose resolution yields N ≥ 1 tracks appends
all of them at the back of the guild's queue in the provider's original
order (`from_url` keeps playlist entries in entry order); if the guild
was already playing, the final queue is exactly the old queue followed by
the new tracks and the `queue` command lists precisely those pending
tracks in that order; if it was not playing (flag down), the advance step
consumes exactly the front element and the rest stays in order. -/
theorem playlist_enqueued_in_order (extract : String → ExtractData)
    (cache : SearchCache) (s : GuildV1) (query : String)
    (hq : isDigitString query = false)
    (hne : fromUrl (extract query) ≠ []) :
    (s.voice.status = .playing →
        (playV1 extract cache s query).state.queue =
          s.queue ++ fromUrl (extract query)
        ∧ queueInfoV1 (playV1 extract cache s query).state =
            ["**Current Queue:**\n" ++ String.intercalate ("\n")
              ((s.queue ++ fromUrl (extract query)).enum.map fun p =>
                toString (p.1 + 1) ++ ". " ++ p.2.title)])
    ∧ (s.voice.status ≠ .playing → s.stopFlag = false →
        (playV1 extract cache s query).state.queue =
          (s.queue ++ fromUrl (extract query)).drop 1
        ∧ (playV1 extract cache s query).started =
          (s.queue ++ fromUrl (extract query)).head?)
    ∧ (∀ entries, (fromUrl (.playlist entries)).map Track.title =
        entries.map Prod.fst) := by
  have hq1 : playQueryV1 cache query = .resolveQuery query := by
    simp [playQueryV1, hq]
  obtain ⟨a, l', hal⟩ := List.exists_cons_of_ne_nil hne
  obtain ⟨b, m, hbm⟩ : ∃ b m, s.queue ++ fromUrl (extract query) = b :: m := by
    rcases hsq : s.queue with _ | ⟨x, xs⟩
    · exact ⟨a, l', by rw [hal]; rfl⟩
    · exact ⟨x, xs ++ fromUrl (extract query), by simp⟩
  refine ⟨?_, ?_, ?_⟩
  · intro h
    rw [playV1, hq1]
    simp only [hal, List.isEmpty_cons, Bool.false_eq_true, if_false, h,
      if_pos rfl]
    refine ⟨rfl, ?_⟩
    rw [queueInfoV1]
    rw [← hal, hbm]
    simp
  · intro h hf
    rw [playV1, hq1]
    simp only [hal, List.isEmpty_cons, Bool.false_eq_true, if_false]
    rw [if_neg (by simpa using h)]
    rw [playNextV1]
    simp only [hf, Bool.false_eq_true, if_false]
    rw [← hal, hbm]
    simp
  · intro entries
    simp [fromUrl]

/-- Witness for Claim C7: a two-entry playlist played on an idle guild
with an empty queue starts the first entry and leaves the second pending,
in provider order. -/
theorem playlist_enqueued_in_order_witness :
    (playV1 (fun _ => ExtractData.playlist [("A", "uA"), ("B", "uB")]) none
        ⟨[], false, ⟨.idle, none⟩⟩ "some playlist url").state.queue =
      [⟨"B", "uB", 1/2⟩]
    ∧ (playV1 (fun _ => ExtractData.playlist [("A", "uA"), ("B", "uB")]) none
        ⟨[], false, ⟨.idle, none⟩⟩ "some playlist url").started =
      some ⟨"A", "uA", 1/2⟩ := by
  have h := (playlist_enqueued_in_order
    (fun _ => ExtractData.playlist [("A", "uA"), ("B", "uB")]) none
    ⟨[], false, ⟨.idle, none⟩⟩ "some playlist url" (by decide)
    (by simp [fromUrl])).2.1 (by decide) rfl
  exact ⟨by rw [h.1]; rfl, by rw [h.2]; rfl⟩

/-- Claim C8: V1 `pause` while not playing and `resume` while not paused
each leave the entire guild state (queue included) unchanged and report
exactly one explanatory message; `pause` from playing transitions the
voice client to paused and `resume` from paused transitions it back to
playing, in both cases keeping the bound source and the queue intact. -/
theorem pause_resume_state_machine (s : GuildV1) :
    (s.voice.status = .playing →
        pauseV1 s = ⟨{ s with voice := ⟨.paused, s.voice.source⟩ }, none, []⟩)
    ∧ (s.voice.status ≠ .playing →
        pauseV1 s =
          ⟨s, none, ["The bot is not playing anything at the moment."]⟩)
    ∧ (s.voice.status = .paused →
        resumeV1 s = ⟨{ s with voice := ⟨.playing, s.voice.source⟩ }, none, []⟩)
    ∧ (s.voice.status ≠ .paused →
        resumeV1 s = ⟨s, none,
          ["The bot was not playing anything before this. Use play_url command"]⟩) := by
  refine ⟨?_, ?_, ?_, ?_⟩ <;> intro h <;> simp [pauseV1, resumeV1, h]

/-- Witness for Claim C8 at concrete states for all four transitions. -/
theorem pause_resume_state_machine_witness :
    pauseV1 ⟨[], false, ⟨.playing, none⟩⟩ =
      ⟨⟨[], false, ⟨.paused, none⟩⟩, none, []⟩
    ∧ resumeV1 ⟨[], false, ⟨.paused, none⟩⟩ =
      ⟨⟨[], false, ⟨.playing, none⟩⟩, none, []⟩
    ∧ pauseV1 ⟨[], false, ⟨.idle, none⟩⟩ =
      ⟨⟨[], false, ⟨.idle, none⟩⟩, none,
        ["The bot is not playing anything at the moment."]⟩
    ∧ resumeV1 ⟨[], false, ⟨.idle, none⟩⟩ =
      ⟨⟨[], false, ⟨.idle, none⟩⟩, none,
        ["The bot was not playing anything before this. Use play_url command"]⟩ := by
  refine ⟨?_, ?_, ?_, ?_⟩
  · exact (pause_resume_state_machine ⟨[], false, ⟨.playing, none⟩⟩).1 rfl
  · exact (pause_resume_state_machine ⟨[], false, ⟨.paused, none⟩⟩).2.2.1 rfl
  · exact (pause_resume_state_machine ⟨[], false, ⟨.idle, none⟩⟩).2.1 (by decide)
  · exact (pause_resume_state_machine ⟨[], false, ⟨.idle, none⟩⟩).2.2.2
      (by decide)

/-- Whatever track the V2 advance step hands to `voice_client.play` was
sitting in the guild's queue. -/
theorem playNextV2_started_mem (s : GuildV2) (t : Track)
    (h : (playNextV2 s).started = some t) : t ∈ s.queue := by
  rcases s with ⟨q, vo⟩
  rcases vo with _ | v
  · simp [playNextV2] at h
  · rcases q with _ | ⟨a, rest⟩
    · simp [playNextV2] at h
    · simp only [playNextV2, Option.some.injEq] at h
      simp [← h]

/-- Claim C9: the V2 `volume` command rewrites only the gain of the
currently bound source — the pending queue is untouched, so when every
pending track still carries the construction-default gain 0.5 (as
`from_url` always produces), any track the advance step dequeues
afterwards starts at gain 0.5 regardless of the volume argument. -/
theorem volume_current_track_only (s : GuildV2) (vol : ℤ)
    (hq : ∀ t ∈ s.queue, t.gain = 1 / 2) :
    (volumeV2 s vol).state.queue = s.queue
    ∧ (∀ v tr, s.voice = some v → v.source = some tr →
        (volumeV2 s vol).state.voice =
          some ⟨v.status, some { tr with gain := (vol : ℚ) / 100 }⟩)
    ∧ (∀ t, (playNextV2 (volumeV2 s vol).state).started = some t →
        t.gain = 1 / 2)
    ∧ (∀ d t, t ∈ fromUrl d → t.gain = 1 / 2) := by
  obtain ⟨q, vo⟩ := s
  have hqueue : (volumeV2 ⟨q, vo⟩ vol).state.queue = q := by
    rcases vo with _ | ⟨st, src⟩
    · rfl
    · rcases src with _ | tr <;> rfl
  refine ⟨hqueue, ?_, ?_, ?_⟩
  · intro v tr hv htr
    subst hv
    obtain ⟨st, src⟩ := v
    rcases src with _ | tr'
    · have hx : (none : Option Track) = some tr := htr
      exact absurd hx (by simp)
    · have hx : some tr' = some tr := htr
      obtain rfl : tr' = tr := Option.some.inj hx
      rfl
  · intro t ht
    have hmem := playNextV2_started_mem _ t ht
    rw [hqueue] at hmem
    exact hq t hmem
  · intro d t ht
    cases d with
    | playlist es =>
        simp only [fromUrl, List.mem_map] at ht
        obtain ⟨e, _, he⟩ := ht
        rw [← he]
    | single ti u =>
        simp only [fromUrl, List.mem_singleton] at ht
        rw [ht]

/-- Witness for Claim C9: setting the volume to 30 on a guild playing
track A with track B pending rewrites only A's gain; B stays at 0.5. -/
theorem volume_current_track_only_witness :
    (volumeV2 ⟨[⟨"B", "uB", 1/2⟩],
        some ⟨.playing, some ⟨"A", "uA", 1/2⟩⟩⟩ 30).state.queue =
      [⟨"B", "uB", 1/2⟩]
    ∧ (volumeV2 ⟨[⟨"B", "uB", 1/2⟩],
        some ⟨.playing, some ⟨"A", "uA", 1/2⟩⟩⟩ 30).state.voice =
      some ⟨.playing, some ⟨"A", "uA", (30 : ℚ) / 100⟩⟩ := by
  have h := volume_current_track_only
    ⟨[⟨"B", "uB", 1/2⟩], some ⟨.playing, some ⟨"A", "uA", 1/2⟩⟩⟩ 30
    (by intro t ht; rw [List.mem_singleton] at ht; subst ht; rfl)
  exact ⟨h.1, h.2.1 ⟨.playing, some ⟨"A", "uA", 1/2⟩⟩ ⟨"A", "uA", 1/2⟩ rfl rfl⟩

/-- Claim C10: in the 2.0 variant, a `play` whose resolution succeeds
while the guild has no voice connection still leaves every resolved track
appended to the guild's queue: the `AttributeError` from
`ctx.voice_client.is_playing()` is caught by the handler's `except` only
AFTER the enqueue loop ran, so the error report (sent after the "Added"
confirmation) does not mean the queue state was rolled back. -/
theorem play_enqueues_despite_no_voice (extract : String → ExtractData)
    (cache : SearchCache) (s : GuildV2) (query url : String)
    (hq : playQueryV2 cache query = .resolveQuery url)
    (hne : fromUrl (extract url) ≠ [])
    (hv : s.voice = none) :
    (playV2 extract cache s query).state.queue =
      s.queue ++ fromUrl (extract url)
    ∧ (playV2 extract cache s query).started = none
    ∧ (playV2 extract cache s query).msgs =
      [addedMsg (fromUrl (extract url)), errOccurredV2] := by
  have hie : (fromUrl (extract url)).isEmpty = false := by
    rcases hfe : fromUrl (extract url) with _ | ⟨a, l'⟩
    · exact absurd hfe hne
    · rfl
  rw [playV2, hq]
  simp [hie, hv]

/-- Witness for Claim C10: playing a single resolvable song on a
disconnected guild enqueues it and reports the error after the "Added"
confirmation. -/
theorem play_enqueues_despite_no_voice_witness :
    (playV2 (fun _ => ExtractData.single ("A") ("uA")) none
        ⟨[], none⟩ "some song").state.queue = [⟨"A", "uA", 1/2⟩]
    ∧ (playV2 (fun _ => ExtractData.single ("A") ("uA")) none
        ⟨[], none⟩ "some song").started = none
    ∧ (playV2 (fun _ => ExtractData.single ("A") ("uA")) none
        ⟨[], none⟩ "some song").msgs =
      [addedMsg [⟨"A", "uA", 1/2⟩], errOccurredV2] := by
  have h := play_enqueues_despite_no_voice
    (fun _ => ExtractData.single ("A") ("uA")) none ⟨[], none⟩
    "some song" "some song" rfl (by simp [fromUrl]) rfl
  exact ⟨by rw [h.1]; rfl, h.2.1, by rw [h.2.2]; rfl⟩
